import Mathlib

/-!
Verification of `infra/docker_compose/init-kanidm-api.py`, a one-shot
provisioning client for a Kanidm identity service.  The script is embedded
shallowly: HTTP responses become a `Response` structure (status, JSON-ish
body, cookies), the two-step login handshake becomes `authenticate`, each
provisioning method of `KanidmClient` becomes a pure function from the
client state and the response to an operation record, and the fixed call
sequence of `main` becomes `runMain` over an environment assigning a
response to every request position.  Python truthiness of the optional
strings the script tests (`if not session_id`, `if not self.token`,
`if secret`, `if not ADMIN_PASSWORD`) is modelled by `truthy`.
-/

namespace KanidmInit

/-- A JSON object as the script consumes it: an association list from field
name to value, where a value is either JSON `null` (`none`) or a string.
The script only ever reads string-valued (or absent/null) fields. -/
structure JsonObj where
  fields : List (String × Option String)
deriving DecidableEq, Repr

/-- Key lookup reporting presence: `none` when the key is absent, `some v`
(with `v` the possibly-null value) when present.  Mirrors Python `k in d`
plus `d[k]`. -/
def JsonObj.getEntry (o : JsonObj) (k : String) : Option (Option String) :=
  (o.fields.find? (fun p => p.1 == k)).map (fun p => p.2)

/-- Python `d.get(k)`: the value when the key is present (null collapsing to
`none`), `none` when absent. -/
def JsonObj.get (o : JsonObj) (k : String) : Option String :=
  (o.getEntry k).join

/-- Python truthiness of an optional string: `None` and `""` are falsy,
every other string is truthy. -/
def truthy : Option String → Bool
  | none => false
  | some s => s != ""

/-- An HTTP response as the script observes it: numeric status, JSON body,
and response cookies (key/value pairs, keys unique as in a cookie jar). -/
structure Response where
  status : Nat
  body : JsonObj
  cookies : List (String × String)
deriving DecidableEq, Repr

/-- Outcome of `KanidmClient.authenticate`: the boolean the method returns,
the value of `self.token` afterwards (`none` = still `None`), and whether
the step-two credential request was issued. -/
structure AuthOutcome where
  ok : Bool
  token : Option String
  step2Issued : Bool
deriving DecidableEq, Repr

/-- Method `KanidmClient.authenticate` (source lines 39-103).  Step 1 posts an
init payload and fails unless the status is 200 and a truthy `sessionid`
is present (the init `state` field is read into a local but never tested).
Step 2 posts the credential; on status 200 and `state == "success"` the
token is taken from body field `bearer` (field presence, Python
`data.get("bearer", data.get("token"))`), falling back to a cookie named
`bearer` when the body-derived value is falsy, and the method succeeds iff
the final value is truthy. -/
def authenticate (username password : String) (initResp credResp : Response) :
    AuthOutcome :=
  if initResp.status != 200 then
    { ok := false, token := none, step2Issued := false }
  else
    let session_id := initResp.body.get "sessionid"
    if !(truthy session_id) then
      { ok := false, token := none, step2Issued := false }
    else if credResp.status != 200 then
      { ok := false, token := none, step2Issued := true }
    else
      let state := credResp.body.get "state"
      if state != some "success" then
        { ok := false, token := none, step2Issued := true }
      else
        let tokenFromBody : Option String :=
          match credResp.body.getEntry "bearer" with
          | some v => v
          | none => credResp.body.get "token"
        let token : Option String :=
          if !(truthy tokenFromBody) then
            match credResp.cookies.find? (fun ck => ck.1 == "bearer") with
            | some ck => some ck.2
            | none => tokenFromBody
          else tokenFromBody
        if !(truthy token) then
          { ok := false, token := token, step2Issued := true }
        else
          { ok := true, token := token, step2Issued := true }

/-- The client state the provisioning methods share: the single bearer
credential (`self.token`).  The HTTP session object carries no data the
embedding needs. -/
structure KanidmClient where
  token : Option String
deriving DecidableEq, Repr

/-- Python `f"Bearer {self.token}"`: interpolation renders `None` as the
string `"None"`. -/
def pyInterp : Option String → String
  | none => "None"
  | some s => s

/-- The Authorization header value every provisioning method builds. -/
def bearerHeader (token : Option String) : String :=
  "Bearer " ++ pyInterp token

/-- One request the script can issue, with its literal arguments. -/
inductive ApiCall where
  | authInit (username : String)
  | authCred
  | oauth2Create (name displayname origin : String)
  | oauth2AddRedirectUrl (name url : String)
  | oauth2EnablePkce (name : String)
  | oauth2UpdateScopeMap (name group : String) (scopes : List String)
  | oauth2GetSecret (name : String)
  | groupCreate (name : String)
  | personCreate (name displayname : String) (mail : Option String)
  | groupAddMembers (group : String) (members : List String)
deriving DecidableEq, Repr

/-- Result of one boolean-returning provisioning method: the boolean it
returns, the client state afterwards, the request it issued and the
Authorization header it sent. -/
structure OpOut where
  ok : Bool
  client : KanidmClient
  call : ApiCall
  authHeader : String
deriving DecidableEq, Repr

/-- Result of `oauth2_get_secret`, which returns an optional string. -/
structure SecretOut where
  secret : Option String
  client : KanidmClient
  call : ApiCall
  authHeader : String
deriving DecidableEq, Repr

/-- Method `KanidmClient.oauth2_create` (lines 105-126): both the 200/201 branch
and the conflict branch return `True`. -/
def oauth2_create (c : KanidmClient) (name displayname origin : String)
    (resp : Response) : OpOut :=
  let headers := bearerHeader c.token
  if resp.status == 200 || resp.status == 201 then
    { ok := true, client := c, call := .oauth2Create name displayname origin,
      authHeader := headers }
  else
    { ok := true, client := c, call := .oauth2Create name displayname origin,
      authHeader := headers }

/-- Method `KanidmClient.oauth2_add_redirect_url` (lines 128-143). -/
def oauth2_add_redirect_url (c : KanidmClient) (name url : String)
    (resp : Response) : OpOut :=
  let headers := bearerHeader c.token
  if resp.status == 200 || resp.status == 201 || resp.status == 204 then
    { ok := true, client := c, call := .oauth2AddRedirectUrl name url,
      authHeader := headers }
  else
    { ok := true, client := c, call := .oauth2AddRedirectUrl name url,
      authHeader := headers }

/-- Method `KanidmClient.oauth2_enable_pkce` (lines 145-158). -/
def oauth2_enable_pkce (c : KanidmClient) (name : String)
    (resp : Response) : OpOut :=
  let headers := bearerHeader c.token
  if resp.status == 200 || resp.status == 204 then
    { ok := true, client := c, call := .oauth2EnablePkce name,
      authHeader := headers }
  else
    { ok := true, client := c, call := .oauth2EnablePkce name,
      authHeader := headers }

/-- Method `KanidmClient.oauth2_update_scope_map` (lines 160-177). -/
def oauth2_update_scope_map (c : KanidmClient) (name group : String)
    (scopes : List String) (resp : Response) : OpOut :=
  let headers := bearerHeader c.token
  if resp.status == 200 || resp.status == 204 then
    { ok := true, client := c, call := .oauth2UpdateScopeMap name group scopes,
      authHeader := headers }
  else
    { ok := true, client := c, call := .oauth2UpdateScopeMap name group scopes,
      authHeader := headers }

/-- Method `KanidmClient.oauth2_get_secret` (lines 179-198): on status 200 the body
field `oauth2_rs_basic_secret` is returned when truthy, otherwise (falsy
value, absent field, or non-200 status) `None`. -/
def oauth2_get_secret (c : KanidmClient) (name : String)
    (resp : Response) : SecretOut :=
  let headers := bearerHeader c.token
  if resp.status == 200 then
    let secret := resp.body.get "oauth2_rs_basic_secret"
    if truthy secret then
      { secret := secret, client := c, call := .oauth2GetSecret name,
        authHeader := headers }
    else
      { secret := none, client := c, call := .oauth2GetSecret name,
        authHeader := headers }
  else
    { secret := none, client := c, call := .oauth2GetSecret name,
      authHeader := headers }

/-- Method `KanidmClient.group_create` (lines 200-215). -/
def group_create (c : KanidmClient) (name : String) (resp : Response) : OpOut :=
  let headers := bearerHeader c.token
  if resp.status == 200 || resp.status == 201 then
    { ok := true, client := c, call := .groupCreate name, authHeader := headers }
  else
    { ok := true, client := c, call := .groupCreate name, authHeader := headers }

/-- Method `KanidmClient.person_create` (lines 217-238). -/
def person_create (c : KanidmClient) (name displayname : String)
    (mail : Option String) (resp : Response) : OpOut :=
  let headers := bearerHeader c.token
  if resp.status == 200 || resp.status == 201 then
    { ok := true, client := c, call := .personCreate name displayname mail,
      authHeader := headers }
  else
    { ok := true, client := c, call := .personCreate name displayname mail,
      authHeader := headers }

/-- Method `KanidmClient.group_add_members` (lines 240-255). -/
def group_add_members (c : KanidmClient) (group : String)
    (members : List String) (resp : Response) : OpOut :=
  let headers := bearerHeader c.token
  if resp.status == 200 || resp.status == 204 then
    { ok := true, client := c, call := .groupAddMembers group members,
      authHeader := headers }
  else
    { ok := true, client := c, call := .groupAddMembers group members,
      authHeader := headers }

/-- One issued request as recorded by the driver: the call and the
Authorization header sent with it (`none` for the two auth steps, which
carry no Authorization header). -/
structure TraceEntry where
  call : ApiCall
  authHeader : Option String
deriving DecidableEq, Repr

/-- Constant `ADMIN_USERNAME` of the script (line 16). -/
def ADMIN_USERNAME : String := "admin"

/-- Result of the provisioning part of `main` (lines 272-321): the ordered
trace of the eighteen awaited calls, the retrieved secret, and the client
state afterwards. -/
structure ProvisionOut where
  trace : List TraceEntry
  secret : Option String
  client : KanidmClient
deriving Repr

/-- The eighteen provisioning calls of `main`, in source order, each awaited
to completion (modelled by consuming the response at the next environment
position) before the next is issued.  Positions 0 and 1 of the environment
are the two auth requests, so provisioning responses sit at positions
2 through 19.  The client state is threaded through every call exactly as
`self` is. -/
def runProvision (c : KanidmClient) (env : Nat → Response) : ProvisionOut :=
  let r1 := oauth2_create c "anthill" "Anthill Inventory Management"
    "http://localhost:5173" (env 2)
  let r2 := oauth2_add_redirect_url r1.client "anthill"
    "http://localhost:5173/oauth/callback" (env 3)
  let r3 := oauth2_add_redirect_url r2.client "anthill"
    "http://localhost:3000/oauth/callback" (env 4)
  let r4 := oauth2_add_redirect_url r3.client "anthill"
    "https://app.example.com/oauth/callback" (env 5)
  let r5 := oauth2_enable_pkce r4.client "anthill" (env 6)
  let r6 := oauth2_update_scope_map r5.client "anthill" "anthill_users"
    ["email", "openid", "profile", "groups"] (env 7)
  let r7 := oauth2_get_secret r6.client "anthill" (env 8)
  let r8 := group_create r7.client "tenant_acme_users" (env 9)
  let r9 := group_create r8.client "tenant_acme_admins" (env 10)
  let r10 := group_create r9.client "tenant_globex_users" (env 11)
  let r11 := group_create r10.client "anthill_users" (env 12)
  let r12 := person_create r11.client "alice" "Alice Admin"
    (some "alice@acme.example.com") (env 13)
  let r13 := person_create r12.client "bob" "Bob User"
    (some "bob@acme.example.com") (env 14)
  let r14 := person_create r13.client "charlie" "Charlie Globex"
    (some "charlie@globex.example.com") (env 15)
  let r15 := group_add_members r14.client "tenant_acme_users"
    ["alice", "bob"] (env 16)
  let r16 := group_add_members r15.client "tenant_acme_admins"
    ["alice"] (env 17)
  let r17 := group_add_members r16.client "tenant_globex_users"
    ["charlie"] (env 18)
  let r18 := group_add_members r17.client "anthill_users"
    ["alice", "bob", "charlie"] (env 19)
  { trace :=
      [⟨r1.call, some r1.authHeader⟩, ⟨r2.call, some r2.authHeader⟩,
       ⟨r3.call, some r3.authHeader⟩, ⟨r4.call, some r4.authHeader⟩,
       ⟨r5.call, some r5.authHeader⟩, ⟨r6.call, some r6.authHeader⟩,
       ⟨r7.call, some r7.authHeader⟩, ⟨r8.call, some r8.authHeader⟩,
       ⟨r9.call, some r9.authHeader⟩, ⟨r10.call, some r10.authHeader⟩,
       ⟨r11.call, some r11.authHeader⟩, ⟨r12.call, some r12.authHeader⟩,
       ⟨r13.call, some r13.authHeader⟩, ⟨r14.call, some r14.authHeader⟩,
       ⟨r15.call, some r15.authHeader⟩, ⟨r16.call, some r16.authHeader⟩,
       ⟨r17.call, some r17.authHeader⟩, ⟨r18.call, some r18.authHeader⟩],
    secret := r7.secret,
    client := r18.client }

/-- Result of one run of `main` (lines 257-351): the returned exit code,
the ordered request trace, the retrieved secret, whether the summary
prints the client-secret line (`if secret:` at line 330), and the client's
token afterwards. -/
structure MainRun where
  exit : Nat
  trace : List TraceEntry
  secret : Option String
  secretLine : Bool
  finalToken : Option String
deriving Repr

/-- Function `main` (lines 257-351): authenticate, return 1 on failure, otherwise
run the fixed provisioning sequence and return 0. -/
def runMain (password : String) (env : Nat → Response) : MainRun :=
  let a := authenticate ADMIN_USERNAME password (env 0) (env 1)
  let authTrace : List TraceEntry :=
    if a.step2Issued then
      [⟨.authInit ADMIN_USERNAME, none⟩, ⟨.authCred, none⟩]
    else
      [⟨.authInit ADMIN_USERNAME, none⟩]
  if a.ok then
    let c : KanidmClient := { token := a.token }
    let p := runProvision c env
    { exit := 0, trace := authTrace ++ p.trace, secret := p.secret,
      secretLine := truthy p.secret, finalToken := p.client.token }
  else
    { exit := 1, trace := authTrace, secret := none, secretLine := false,
      finalToken := a.token }

/-- How the `asyncio.run(main())` call in the `__main__` block ends:
normally, by `KeyboardInterrupt`, or by an unhandled exception. -/
inductive RunEvent where
  | completes
  | keyboardInterrupt
  | raisesException
deriving DecidableEq, Repr

/-- The module-level password check (lines 17-21): `main` is only entered
when `KANIDM_ADMIN_PASSWORD` is set and non-empty; otherwise the process
exits before constructing any session or issuing any request (`none`). -/
def runScript (password : Option String) (env : Nat → Response) :
    Option MainRun :=
  if truthy password then some (runMain (pyInterp password) env) else none

/-- The process exit code (lines 17-21 and 353-364): 1 when the password is
missing, otherwise `main`'s return value on normal completion, 130 on
`KeyboardInterrupt`, 1 on an unhandled exception. -/
def processExit (password : Option String) (ev : RunEvent)
    (env : Nat → Response) : Nat :=
  match runScript password env with
  | none => 1
  | some run =>
    match ev with
    | .completes => run.exit
    | .keyboardInterrupt => 130
    | .raisesException => 1

/-- The twenty requests `main` issues when authentication succeeds, in
source order (lines 272-321): the two auth steps, then the eighteen
provisioning calls. -/
def fullCalls : List ApiCall :=
  [.authInit "admin", .authCred,
   .oauth2Create "anthill" "Anthill Inventory Management" "http://localhost:5173",
   .oauth2AddRedirectUrl "anthill" "http://localhost:5173/oauth/callback",
   .oauth2AddRedirectUrl "anthill" "http://localhost:3000/oauth/callback",
   .oauth2AddRedirectUrl "anthill" "https://app.example.com/oauth/callback",
   .oauth2EnablePkce "anthill",
   .oauth2UpdateScopeMap "anthill" "anthill_users"
     ["email", "openid", "profile", "groups"],
   .oauth2GetSecret "anthill",
   .groupCreate "tenant_acme_users", .groupCreate "tenant_acme_admins",
   .groupCreate "tenant_globex_users", .groupCreate "anthill_users",
   .personCreate "alice" "Alice Admin" (some "alice@acme.example.com"),
   .personCreate "bob" "Bob User" (some "bob@acme.example.com"),
   .personCreate "charlie" "Charlie Globex" (some "charlie@globex.example.com"),
   .groupAddMembers "tenant_acme_users" ["alice", "bob"],
   .groupAddMembers "tenant_acme_admins" ["alice"],
   .groupAddMembers "tenant_globex_users" ["charlie"],
   .groupAddMembers "anthill_users" ["alice", "bob", "charlie"]]

/-- Fixture: an init-step response carrying a truthy session id. -/
def initOk : Response :=
  { status := 200,
    body := ⟨[("sessionid", some "sess-1"), ("state", some "continue")]⟩,
    cookies := [] }

/-- Fixture: a credential-step response with `state = "success"` and a
truthy `bearer` body field. -/
def credOk : Response :=
  { status := 200,
    body := ⟨[("state", some "success"), ("bearer", some "admintok")]⟩,
    cookies := [] }

/-- Fixture: a 409 Conflict response with an empty body. -/
def resp409 : Response :=
  { status := 409, body := ⟨[]⟩, cookies := [] }

/-- Fixture environment: the handshake succeeds and every provisioning
call receives 409 Conflict. -/
def env409 : Nat → Response
  | 0 => initOk
  | 1 => credOk
  | _ => resp409

@[simp] theorem oauth2_create_eq (c : KanidmClient) (name displayname origin : String)
    (resp : Response) :
    oauth2_create c name displayname origin resp =
      { ok := true, client := c, call := .oauth2Create name displayname origin,
        authHeader := bearerHeader c.token } := by
  unfold oauth2_create; split <;> rfl

@[simp] theorem oauth2_add_redirect_url_eq (c : KanidmClient) (name url : String)
    (resp : Response) :
    oauth2_add_redirect_url c name url resp =
      { ok := true, client := c, call := .oauth2AddRedirectUrl name url,
        authHeader := bearerHeader c.token } := by
  unfold oauth2_add_redirect_url; split <;> rfl

@[simp] theorem oauth2_enable_pkce_eq (c : KanidmClient) (name : String)
    (resp : Response) :
    oauth2_enable_pkce c name resp =
      { ok := true, client := c, call := .oauth2EnablePkce name,
        authHeader := bearerHeader c.token } := by
  unfold oauth2_enable_pkce; split <;> rfl

@[simp] theorem oauth2_update_scope_map_eq (c : KanidmClient) (name group : String)
    (scopes : List String) (resp : Response) :
    oauth2_update_scope_map c name group scopes resp =
      { ok := true, client := c, call := .oauth2UpdateScopeMap name group scopes,
        authHeader := bearerHeader c.token } := by
  unfold oauth2_update_scope_map; split <;> rfl

@[simp] theorem group_create_eq (c : KanidmClient) (name : String) (resp : Response) :
    group_create c name resp =
      { ok := true, client := c, call := .groupCreate name,
        authHeader := bearerHeader c.token } := by
  unfold group_create; split <;> rfl

@[simp] theorem person_create_eq (c : KanidmClient) (name displayname : String)
    (mail : Option String) (resp : Response) :
    person_create c name displayname mail resp =
      { ok := true, client := c, call := .personCreate name displayname mail,
        authHeader := bearerHeader c.token } := by
  unfold person_create; split <;> rfl

@[simp] theorem group_add_members_eq (c : KanidmClient) (group : String)
    (members : List String) (resp : Response) :
    group_add_members c group members resp =
      { ok := true, client := c, call := .groupAddMembers group members,
        authHeader := bearerHeader c.token } := by
  unfold group_add_members; split <;> rfl

@[simp] theorem oauth2_get_secret_client (c : KanidmClient) (name : String)
    (resp : Response) : (oauth2_get_secret c name resp).client = c := by
  unfold oauth2_get_secret
  split
  · dsimp only
    split <;> rfl
  · rfl

@[simp] theorem oauth2_get_secret_call (c : KanidmClient) (name : String)
    (resp : Response) :
    (oauth2_get_secret c name resp).call = .oauth2GetSecret name := by
  unfold oauth2_get_secret
  split
  · dsimp only
    split <;> rfl
  · rfl

@[simp] theorem oauth2_get_secret_authHeader (c : KanidmClient) (name : String)
    (resp : Response) :
    (oauth2_get_secret c name resp).authHeader = bearerHeader c.token := by
  unfold oauth2_get_secret
  split
  · dsimp only
    split <;> rfl
  · rfl

theorem authenticate_ok_step2 (username password : String)
    (initResp credResp : Response)
    (h : (authenticate username password initResp credResp).ok = true) :
    (authenticate username password initResp credResp).step2Issued = true := by
  by_cases hb1 : (initResp.status != 200) = true
  · simp [authenticate, hb1] at h
  · by_cases hb2 : (!(truthy (initResp.body.get "sessionid"))) = true
    · simp [authenticate, hb1, hb2] at h
    · by_cases hb3 : (credResp.status != 200) = true
      · simp [authenticate, hb1, hb2, hb3]
      · by_cases hb4 : ((credResp.body.get "state") != some "success") = true
        · simp [authenticate, hb1, hb2, hb3, hb4]
        · simp [authenticate, hb1, hb2, hb3, hb4,
            apply_ite AuthOutcome.step2Issued]

/-- Fixture: an init-step response with status 200 but no `sessionid`. -/
def initNoSession : Response :=
  { status := 200, body := ⟨[("state", some "continue")]⟩, cookies := [] }

/-- Fixture: a credential-step response with status 200 and a state other
than `"success"`. -/
def credBadState : Response :=
  { status := 200, body := ⟨[("state", some "denied")]⟩, cookies := [] }

/-- Fixture: a credential-step response whose body carries the `bearer`
field with an empty (falsy) string value while a cookie named `bearer`
holds a token. -/
def credEmptyBearer : Response :=
  { status := 200,
    body := ⟨[("state", some "success"), ("bearer", some "")]⟩,
    cookies := [("bearer", "cookie-tok")] }

/-- The token selection exactly as claim C2 words it: the body field
`bearer` if present, otherwise the body field `token` if present,
otherwise the value of the response cookie named `bearer`. -/
def claimedTokenC2 (credResp : Response) : Option String :=
  match credResp.body.getEntry "bearer" with
  | some v => v
  | none =>
    match credResp.body.getEntry "token" with
    | some v => v
    | none =>
      (credResp.cookies.find? (fun ck => ck.1 == "bearer")).map (fun ck => ck.2)

/-- The token selection the source actually performs: the body-derived
value (`bearer` by field presence, else `token`), replaced by the `bearer`
cookie's value whenever the body-derived value is falsy (absent, null or
empty) and such a cookie exists. -/
def amendedTokenC2 (credResp : Response) : Option String :=
  let tokenFromBody : Option String :=
    match credResp.body.getEntry "bearer" with
    | some v => v
    | none => credResp.body.get "token"
  if !(truthy tokenFromBody) then
    match credResp.cookies.find? (fun ck => ck.1 == "bearer") with
    | some ck => some ck.2
    | none => tokenFromBody
  else tokenFromBody

/-- C3: for every init-step response carrying no session identifier (or a
falsy one), `authenticate` reports failure without issuing the step-two
credential request. -/
theorem C3_no_session_id_fails_before_step2 (username password : String)
    (initResp credResp : Response)
    (h : truthy (initResp.body.get "sessionid") = false) :
    (authenticate username password initResp credResp).ok = false ∧
    (authenticate username password initResp credResp).step2Issued = false := by
  by_cases hb1 : (initResp.status != 200) = true
  · simp [authenticate, hb1]
  · simp [authenticate, hb1, h]

/-- C3 witness: a 200 init response whose body has no `sessionid` field. -/
theorem C3_witness :
    truthy (initNoSession.body.get "sessionid") = false ∧
    ((authenticate "admin" "pw" initNoSession credOk).ok = false ∧
     (authenticate "admin" "pw" initNoSession credOk).step2Issued = false) :=
  ⟨by decide,
   C3_no_session_id_fails_before_step2 "admin" "pw" initNoSession credOk
     (by decide)⟩

/-- C4: for every credential-step response with status 200 whose state
field differs from `"success"`, `authenticate` reports failure and the
stored token stays `None`. -/
theorem C4_state_not_success_fails (username password : String)
    (initResp credResp : Response)
    (h200 : credResp.status = 200)
    (hstate : credResp.body.get "state" ≠ some "success") :
    (authenticate username password initResp credResp).ok = false ∧
    (authenticate username password initResp credResp).token = none := by
  by_cases hb1 : (initResp.status != 200) = true
  · simp [authenticate, hb1]
  · by_cases hb2 : (!(truthy (initResp.body.get "sessionid"))) = true
    · simp [authenticate, hb1, hb2]
    · simp [authenticate, hb1, hb2, h200, hstate]

/-- C4 witness: a 200 credential response with state `"denied"`. -/
theorem C4_witness :
    credBadState.status = 200 ∧
    credBadState.body.get "state" ≠ some "success" ∧
    ((authenticate "admin" "pw" initOk credBadState).ok = false ∧
     (authenticate "admin" "pw" initOk credBadState).token = none) :=
  ⟨by decide, by decide,
   C4_state_not_success_fails "admin" "pw" initOk credBadState
     (by decide) (by decide)⟩

/-- C10: the init step's `state` field is read but never tested — step two
is issued exactly when the init status is 200 and the `sessionid` is
truthy, and the whole outcome of `authenticate` depends on the init
response only through its status and its `sessionid` field. -/
theorem C10_init_state_never_tested (username password : String)
    (initResp credResp : Response) :
    ((authenticate username password initResp credResp).step2Issued = true ↔
      (initResp.status = 200 ∧ truthy (initResp.body.get "sessionid") = true)) ∧
    (∀ initResp2 : Response, initResp2.status = initResp.status →
      initResp2.body.get "sessionid" = initResp.body.get "sessionid" →
      authenticate username password initResp2 credResp =
        authenticate username password initResp credResp) := by
  constructor
  · by_cases hs : initResp.status = 200
    · by_cases h2 : truthy (initResp.body.get "sessionid") = true
      · simp [authenticate, hs, h2, apply_ite AuthOutcome.step2Issued]
      · simp [authenticate, hs, h2]
    · simp [authenticate, hs]
  · intro initResp2 hstat hsid
    unfold authenticate
    rw [hstat, hsid]

/-- C10 witness: changing the init `state` field (here from `"continue"`
to `"denied"`) changes nothing about the outcome. -/
theorem C10_witness :
    ((authenticate "admin" "pw" initOk credOk).step2Issued = true ↔
      (initOk.status = 200 ∧ truthy (initOk.body.get "sessionid") = true)) ∧
    authenticate "admin" "pw"
        ⟨200, ⟨[("sessionid", some "sess-1"), ("state", some "denied")]⟩, []⟩
        credOk =
      authenticate "admin" "pw" initOk credOk :=
  ⟨(C10_init_state_never_tested "admin" "pw" initOk credOk).1,
   (C10_init_state_never_tested "admin" "pw" initOk credOk).2
     ⟨200, ⟨[("sessionid", some "sess-1"), ("state", some "denied")]⟩, []⟩
     (by decide) (by decide)⟩

/-- C2 counterexample: a successful handshake whose credential body carries
the `bearer` field with the (present but falsy) value `""` and a cookie
named `bearer` holding `"cookie-tok"`.  The claim's selection yields the
present body field (`""`), but the code stores the cookie value and
succeeds. -/
theorem C2_counterexample :
    initOk.status = 200 ∧ credEmptyBearer.status = 200 ∧
    credEmptyBearer.body.get "state" = some "success" ∧
    claimedTokenC2 credEmptyBearer = some "" ∧
    (authenticate "admin" "pw" initOk credEmptyBearer).token = some "cookie-tok" ∧
    (authenticate "admin" "pw" initOk credEmptyBearer).ok = true ∧
    (authenticate "admin" "pw" initOk credEmptyBearer).token ≠
      claimedTokenC2 credEmptyBearer := by
  decide

/-- C2 (amended): for every handshake in which the init step passes (status
200, truthy `sessionid`) and the credential step returns 200 with state
`"success"`, the stored token is the body-derived value (`bearer` by field
presence, else `token`) with the `bearer` cookie as fallback whenever the
body-derived value is falsy — and `authenticate` succeeds iff that final
value is truthy. -/
theorem C2_amended_token_selection (username password : String)
    (initResp credResp : Response)
    (h1 : initResp.status = 200)
    (h2 : truthy (initResp.body.get "sessionid") = true)
    (h3 : credResp.status = 200)
    (h4 : credResp.body.get "state" = some "success") :
    (authenticate username password initResp credResp).token =
      amendedTokenC2 credResp ∧
    ((authenticate username password initResp credResp).ok = true ↔
      truthy (amendedTokenC2 credResp) = true) := by
  constructor <;>
    simp [authenticate, amendedTokenC2, h1, h2, h3, h4,
      apply_ite AuthOutcome.token, apply_ite AuthOutcome.ok, ite_self]

/-- C2 (amended) witness: the concrete handshake of the counterexample,
where the amended selection returns the cookie token. -/
theorem C2_amended_witness :
    initOk.status = 200 ∧ truthy (initOk.body.get "sessionid") = true ∧
    credEmptyBearer.status = 200 ∧
    credEmptyBearer.body.get "state" = some "success" ∧
    ((authenticate "admin" "pw" initOk credEmptyBearer).token =
       amendedTokenC2 credEmptyBearer ∧
     ((authenticate "admin" "pw" initOk credEmptyBearer).ok = true ↔
       truthy (amendedTokenC2 credEmptyBearer) = true)) :=
  ⟨by decide, by decide, by decide, by decide,
   C2_amended_token_selection "admin" "pw" initOk credEmptyBearer
     (by decide) (by decide) (by decide) (by decide)⟩

/-- Position of a call in the fixed sequence `fullCalls`. -/
def callIdx (c : ApiCall) : Nat :=
  fullCalls.findIdx (fun x => x == c)

/-- The ordering facts claim C8 states about the fixed sequence: the OAuth2
client creation precedes every call configuring its sub-resources, and
each group's creation precedes the membership call for that group. -/
def fixedOrderOk : Prop :=
  (callIdx (.oauth2Create "anthill" "Anthill Inventory Management"
      "http://localhost:5173") <
    callIdx (.oauth2AddRedirectUrl "anthill"
      "http://localhost:5173/oauth/callback") ∧
   callIdx (.oauth2Create "anthill" "Anthill Inventory Management"
      "http://localhost:5173") <
    callIdx (.oauth2AddRedirectUrl "anthill"
      "http://localhost:3000/oauth/callback") ∧
   callIdx (.oauth2Create "anthill" "Anthill Inventory Management"
      "http://localhost:5173") <
    callIdx (.oauth2AddRedirectUrl "anthill"
      "https://app.example.com/oauth/callback") ∧
   callIdx (.oauth2Create "anthill" "Anthill Inventory Management"
      "http://localhost:5173") < callIdx (.oauth2EnablePkce "anthill") ∧
   callIdx (.oauth2Create "anthill" "Anthill Inventory Management"
      "http://localhost:5173") <
    callIdx (.oauth2UpdateScopeMap "anthill" "anthill_users"
      ["email", "openid", "profile", "groups"]) ∧
   callIdx (.oauth2Create "anthill" "Anthill Inventory Management"
      "http://localhost:5173") < callIdx (.oauth2GetSecret "anthill")) ∧
  (callIdx (.groupCreate "tenant_acme_users") <
    callIdx (.groupAddMembers "tenant_acme_users" ["alice", "bob"]) ∧
   callIdx (.groupCreate "tenant_acme_admins") <
    callIdx (.groupAddMembers "tenant_acme_admins" ["alice"]) ∧
   callIdx (.groupCreate "tenant_globex_users") <
    callIdx (.groupAddMembers "tenant_globex_users" ["charlie"]) ∧
   callIdx (.groupCreate "anthill_users") <
    callIdx (.groupAddMembers "anthill_users" ["alice", "bob", "charlie"]))

/-- When authentication succeeds, `main` issues exactly the fixed twenty
requests in source order, returns 0, leaves the token as authentication
set it, and sends the Authorization header built from that token with
every provisioning request. -/
theorem runMain_of_auth_ok (password : String) (env : Nat → Response)
    (h : (authenticate ADMIN_USERNAME password (env 0) (env 1)).ok = true) :
    (runMain password env).trace.map TraceEntry.call = fullCalls ∧
    (runMain password env).exit = 0 ∧
    (runMain password env).finalToken =
      (authenticate ADMIN_USERNAME password (env 0) (env 1)).token ∧
    (∀ e ∈ (runMain password env).trace, e.authHeader = none ∨
      e.authHeader = some (bearerHeader
        (authenticate ADMIN_USERNAME password (env 0) (env 1)).token)) := by
  have h2 := authenticate_ok_step2 ADMIN_USERNAME password (env 0) (env 1) h
  simp only [ADMIN_USERNAME] at h h2
  simp [runMain, runProvision, h, h2, fullCalls, ADMIN_USERNAME,
    List.forall_mem_cons]

/-- C1: every mutating provisioning operation returns `True` for every HTTP
response status, so a non-success status (409 included) never aborts the
sequence — when authentication succeeds the driver issues the whole fixed
sequence and `main` still returns 0, whatever the provisioning statuses. -/
theorem C1_soft_conflict_never_aborts :
    (∀ (c : KanidmClient) (name displayname origin : String) (resp : Response),
      (oauth2_create c name displayname origin resp).ok = true) ∧
    (∀ (c : KanidmClient) (name url : String) (resp : Response),
      (oauth2_add_redirect_url c name url resp).ok = true) ∧
    (∀ (c : KanidmClient) (name : String) (resp : Response),
      (oauth2_enable_pkce c name resp).ok = true) ∧
    (∀ (c : KanidmClient) (name group : String) (scopes : List String)
      (resp : Response),
      (oauth2_update_scope_map c name group scopes resp).ok = true) ∧
    (∀ (c : KanidmClient) (name : String) (resp : Response),
      (group_create c name resp).ok = true) ∧
    (∀ (c : KanidmClient) (name displayname : String) (mail : Option String)
      (resp : Response),
      (person_create c name displayname mail resp).ok = true) ∧
    (∀ (c : KanidmClient) (group : String) (members : List String)
      (resp : Response),
      (group_add_members c group members resp).ok = true) ∧
    (∀ (password : String) (env : Nat → Response),
      (authenticate ADMIN_USERNAME password (env 0) (env 1)).ok = true →
      (runMain password env).trace.map TraceEntry.call = fullCalls ∧
      (runMain password env).exit = 0) := by
  refine ⟨fun c n d o r => by simp, fun c n u r => by simp,
    fun c n r => by simp, fun c n g s r => by simp, fun c n r => by simp,
    fun c n d m r => by simp, fun c g ms r => by simp,
    fun password env h => ⟨(runMain_of_auth_ok password env h).1,
      (runMain_of_auth_ok password env h).2.1⟩⟩

/-- C1 witness: a 409 response to the OAuth2 client creation still yields
`True`, and with every provisioning call answered 409 the driver still
issues the full sequence and exits 0. -/
theorem C1_witness :
    resp409.status = 409 ∧
    (oauth2_create ⟨some "admintok"⟩ "anthill" "Anthill Inventory Management"
      "http://localhost:5173" resp409).ok = true ∧
    (authenticate ADMIN_USERNAME "pw" (env409 0) (env409 1)).ok = true ∧
    ((runMain "pw" env409).trace.map TraceEntry.call = fullCalls ∧
     (runMain "pw" env409).exit = 0) :=
  ⟨by decide,
   C1_soft_conflict_never_aborts.1 ⟨some "admintok"⟩ "anthill"
     "Anthill Inventory Management" "http://localhost:5173" resp409,
   by decide,
   C1_soft_conflict_never_aborts.2.2.2.2.2.2.2 "pw" env409 (by decide)⟩

/-- C8: when authentication succeeds the driver issues exactly the fixed
sequence — creation of the OAuth2 client before every sub-resource call,
each group's creation before its membership call — one awaited call after
the other (the environment position consumed by each call precedes the
next call's). -/
theorem C8_fixed_call_order (password : String) (env : Nat → Response)
    (h : (authenticate ADMIN_USERNAME password (env 0) (env 1)).ok = true) :
    (runMain password env).trace.map TraceEntry.call = fullCalls ∧
    fixedOrderOk := by
  refine ⟨(runMain_of_auth_ok password env h).1, ?_⟩
  constructor <;> refine ⟨by decide, by decide, by decide, ?_⟩ <;>
    first
      | exact ⟨by decide, by decide, by decide⟩
      | decide

/-- C8 witness: the all-409 environment with a successful handshake. -/
theorem C8_witness :
    (authenticate ADMIN_USERNAME "pw" (env409 0) (env409 1)).ok = true ∧
    ((runMain "pw" env409).trace.map TraceEntry.call = fullCalls ∧
     fixedOrderOk) :=
  ⟨by decide, C8_fixed_call_order "pw" env409 (by decide)⟩

/-- C9: no provisioning operation ever reassigns the client's token — each
returns the client state unchanged and sends the Authorization header
built from the current token — so after a successful authentication every
issued provisioning request carries the identical header built from the
token authentication stored, and the token after the full run equals the
token authentication produced. -/
theorem C9_token_invariant :
    (∀ (c : KanidmClient) (name displayname origin : String) (resp : Response),
      (oauth2_create c name displayname origin resp).client = c ∧
      (oauth2_create c name displayname origin resp).authHeader =
        bearerHeader c.token) ∧
    (∀ (c : KanidmClient) (name url : String) (resp : Response),
      (oauth2_add_redirect_url c name url resp).client = c ∧
      (oauth2_add_redirect_url c name url resp).authHeader =
        bearerHeader c.token) ∧
    (∀ (c : KanidmClient) (name : String) (resp : Response),
      (oauth2_enable_pkce c name resp).client = c ∧
      (oauth2_enable_pkce c name resp).authHeader = bearerHeader c.token) ∧
    (∀ (c : KanidmClient) (name group : String) (scopes : List String)
      (resp : Response),
      (oauth2_update_scope_map c name group scopes resp).client = c ∧
      (oauth2_update_scope_map c name group scopes resp).authHeader =
        bearerHeader c.token) ∧
    (∀ (c : KanidmClient) (name : String) (resp : Response),
      (oauth2_get_secret c name resp).client = c ∧
      (oauth2_get_secret c name resp).authHeader = bearerHeader c.token) ∧
    (∀ (c : KanidmClient) (name : String) (resp : Response),
      (group_create c name resp).client = c ∧
      (group_create c name resp).authHeader = bearerHeader c.token) ∧
    (∀ (c : KanidmClient) (name displayname : String) (mail : Option String)
      (resp : Response),
      (person_create c name displayname mail resp).client = c ∧
      (person_create c name displayname mail resp).authHeader =
        bearerHeader c.token) ∧
    (∀ (c : KanidmClient) (group : String) (members : List String)
      (resp : Response),
      (group_add_members c group members resp).client = c ∧
      (group_add_members c group members resp).authHeader =
        bearerHeader c.token) ∧
    (∀ (password : String) (env : Nat → Response),
      (authenticate ADMIN_USERNAME password (env 0) (env 1)).ok = true →
      (runMain password env).finalToken =
        (authenticate ADMIN_USERNAME password (env 0) (env 1)).token ∧
      (∀ e ∈ (runMain password env).trace, e.authHeader = none ∨
        e.authHeader = some (bearerHeader
          (authenticate ADMIN_USERNAME password (env 0) (env 1)).token))) := by
  refine ⟨fun c n d o r => by simp, fun c n u r => by simp,
    fun c n r => by simp, fun c n g s r => by simp, fun c n r => by simp,
    fun c n r => by simp, fun c n d m r => by simp, fun c g ms r => by simp,
    fun password env h => ⟨(runMain_of_auth_ok password env h).2.2.1,
      (runMain_of_auth_ok password env h).2.2.2⟩⟩

/-- C9 witness: in the all-409 environment the token after the full run is
the one authentication stored, and every provisioning request carried the
header built from it. -/
theorem C9_witness :
    (authenticate ADMIN_USERNAME "pw" (env409 0) (env409 1)).ok = true ∧
    ((runMain "pw" env409).finalToken =
       (authenticate ADMIN_USERNAME "pw" (env409 0) (env409 1)).token ∧
     (∀ e ∈ (runMain "pw" env409).trace, e.authHeader = none ∨
       e.authHeader = some (bearerHeader
         (authenticate ADMIN_USERNAME "pw" (env409 0) (env409 1)).token))) :=
  ⟨by decide,
   C9_token_invariant.2.2.2.2.2.2.2.2 "pw" env409 (by decide)⟩

/-- Fixture: a 200 secret-retrieval response whose `oauth2_rs_basic_secret`
field is present but empty. -/
def secretEmptyResp : Response :=
  { status := 200, body := ⟨[("oauth2_rs_basic_secret", some "")]⟩,
    cookies := [] }

/-- The secret extraction exactly as claim C7 words it: the value of the
body field `oauth2_rs_basic_secret` when the status is 200 and the field
is present, `None` otherwise. -/
def claimedSecretC7 (resp : Response) : Option String :=
  if resp.status == 200 then
    match resp.body.getEntry "oauth2_rs_basic_secret" with
    | some v => v
    | none => none
  else none

/-- The summary's secret line is printed exactly when the retrieved secret
is truthy (`if secret:`), on every run. -/
theorem runMain_secretLine (password : String) (env : Nat → Response) :
    (runMain password env).secretLine = truthy (runMain password env).secret := by
  unfold runMain
  by_cases ha : (authenticate ADMIN_USERNAME password (env 0) (env 1)).ok = true
  · simp [ha]
  · simp [ha, truthy]

/-- C5: when the administrator-password environment variable is unset or
empty, the process exits with code 1 and `main` is never entered — no
session is constructed and no request is issued. -/
theorem C5_missing_password_exits_1 (password : Option String)
    (ev : RunEvent) (env : Nat → Response)
    (h : truthy password = false) :
    processExit password ev env = 1 ∧ runScript password env = none := by
  simp [processExit, runScript, h]

/-- C5 witness: the variable unset (`none`). -/
theorem C5_witness :
    truthy none = false ∧
    (processExit none RunEvent.completes env409 = 1 ∧
     runScript none env409 = none) :=
  ⟨by decide,
   C5_missing_password_exits_1 none RunEvent.completes env409 (by decide)⟩

/-- C6: the process exit code is exactly 0 when the password is present,
the run completes and authentication succeeds; 130 when the password is
present and the run is interrupted; and 1 when the password is missing, an
unhandled exception escapes, or the run completes with a failed
handshake. -/
theorem C6_exit_codes (password : Option String) (ev : RunEvent)
    (env : Nat → Response) :
    (processExit password ev env = 0 ↔
      (truthy password = true ∧ ev = RunEvent.completes ∧
       (authenticate ADMIN_USERNAME (pyInterp password) (env 0) (env 1)).ok =
         true)) ∧
    (processExit password ev env = 130 ↔
      (truthy password = true ∧ ev = RunEvent.keyboardInterrupt)) ∧
    (processExit password ev env = 1 ↔
      (truthy password = false ∨ ev = RunEvent.raisesException ∨
       (ev = RunEvent.completes ∧
        (authenticate ADMIN_USERNAME (pyInterp password) (env 0) (env 1)).ok =
          false))) := by
  by_cases hp : truthy password = true
  · cases ev with
    | completes =>
      by_cases ha :
          (authenticate ADMIN_USERNAME (pyInterp password) (env 0) (env 1)).ok =
            true
      · simp [processExit, runScript, runMain, hp, ha]
      · simp [processExit, runScript, runMain, hp, ha]
    | keyboardInterrupt => simp [processExit, runScript, hp]
    | raisesException => simp [processExit, runScript, hp]
  · have hp' : truthy password = false := by
      revert hp; cases truthy password <;> simp
    simp [processExit, runScript, hp']

/-- C7 counterexample: a 200 secret-retrieval response whose
`oauth2_rs_basic_secret` field is present with the empty value.  The claim
says the (present) value is returned; the code returns `None`. -/
theorem C7_counterexample :
    secretEmptyResp.status = 200 ∧
    secretEmptyResp.body.getEntry "oauth2_rs_basic_secret" = some (some "") ∧
    claimedSecretC7 secretEmptyResp = some "" ∧
    (oauth2_get_secret ⟨some "admintok"⟩ "anthill" secretEmptyResp).secret =
      none ∧
    (oauth2_get_secret ⟨some "admintok"⟩ "anthill" secretEmptyResp).secret ≠
      claimedSecretC7 secretEmptyResp := by
  decide

/-- C7 (amended): `oauth2_get_secret` returns the body field
`oauth2_rs_basic_secret` when the status is 200 and the field holds a
truthy value, and `None` otherwise (absent field, falsy value, or non-200
status); whenever `main`'s retrieved secret is `None` the summary prints
no client-secret line. -/
theorem C7_amended_secret (c : KanidmClient) (name : String)
    (resp : Response) :
    ((oauth2_get_secret c name resp).secret =
      if resp.status == 200 &&
          truthy (resp.body.get "oauth2_rs_basic_secret") then
        resp.body.get "oauth2_rs_basic_secret"
      else none) ∧
    (∀ (password : String) (env : Nat → Response),
      (runMain password env).secret = none →
      (runMain password env).secretLine = false) := by
  constructor
  · unfold oauth2_get_secret
    by_cases h1 : (resp.status == 200) = true
    · by_cases h2 : truthy (resp.body.get "oauth2_rs_basic_secret") = true
      · simp [h1, h2]
      · simp [h1, h2]
    · simp [h1]
  · intro password env h
    rw [runMain_secretLine, h]
    rfl

/-- C7 (amended) witness: a 409 secret response yields `None` and the run's
summary has no secret line. -/
theorem C7_witness :
    ((oauth2_get_secret ⟨some "admintok"⟩ "anthill" resp409).secret =
      if resp409.status == 200 &&
          truthy (resp409.body.get "oauth2_rs_basic_secret") then
        resp409.body.get "oauth2_rs_basic_secret"
      else none) ∧
    (runMain "pw" env409).secret = none ∧
    (runMain "pw" env409).secretLine = false :=
  ⟨(C7_amended_secret ⟨some "admintok"⟩ "anthill" resp409).1,
   by decide,
   (C7_amended_secret ⟨some "admintok"⟩ "anthill" resp409).2 "pw" env409
     (by decide)⟩

end KanidmInit
